import Mathlib

/-!
Verification of the safe web-fetch subsystem in
`backend/open_webui/retrieval/web/utils.py`.

External collaborators (the `validators` library, `urllib.parse`, DNS
resolution via `socket.getaddrinfo`, the BeautifulSoup parser, the
Playwright browser, TLS handshakes) are abstracted as function-valued
fields of environment structures; every control-flow decision of the
Python functions is translated from the source.
-/

namespace OpenWebUI

/-- Abstraction of the network/parsing collaborators used by `validate_url`:
`urlSyntaxOk u` stands for `validators.url(u)` not returning a
`ValidationError`; `hostname u` for `urllib.parse.urlparse(u).hostname`;
`resolve h` for `socket.getaddrinfo(h, None)` grouped into IPv4/IPv6
addresses (`none` models `socket.gaierror`, i.e. DNS failure);
`ipv4Private`/`ipv6Private` for `validators.ipv4(ip, private=True)` /
`validators.ipv6(ip, private=True)` succeeding. -/
structure NetEnv where
  urlSyntaxOk : String → Bool
  hostname : String → String
  resolve : String → Option (List String × List String)
  ipv4Private : String → Bool
  ipv6Private : String → Bool

/-- The module-level configuration read by the code:
`ENABLE_RAG_LOCAL_WEB_FETCH`, `RAG_WEB_LOADER.value`,
`PLAYWRIGHT_WS_URI.value` (`none`/empty string are falsy). -/
structure Config where
  enableLocalWebFetch : Bool
  ragWebLoader : String
  playwrightWsUri : Option String

/-- The exceptions `validate_url` can raise: `invalidUrl` models
`ValueError(ERROR_MESSAGES.INVALID_URL)`, `resolutionError` models the
`socket.gaierror` escaping from `resolve_hostname` when DNS fails. -/
inductive VErr where
  | invalidUrl
  | resolutionError
deriving DecidableEq, Repr

/-- `validate_url` (the single-string branch; `safe_validate_urls` only ever
passes single strings).  Raising is modelled as `Except.error`. -/
def validate_url (env : NetEnv) (cfg : Config) (url : String) : Except VErr Bool :=
  if !env.urlSyntaxOk url then Except.error VErr.invalidUrl
  else if !cfg.enableLocalWebFetch then
    match env.resolve (env.hostname url) with
    | none => Except.error VErr.resolutionError
    | some (ipv4_addresses, ipv6_addresses) =>
      if ipv4_addresses.any env.ipv4Private then Except.error VErr.invalidUrl
      else if ipv6_addresses.any env.ipv6Private then Except.error VErr.invalidUrl
      else Except.ok true
  else Except.ok true

/-- `safe_validate_urls`: the Python loop appends each `u` for which
`validate_url(u)` is truthy, catching ONLY `ValueError`; any other
exception (in particular `socket.gaierror`) propagates, discarding the
partial list. -/
def safe_validate_urls (env : NetEnv) (cfg : Config) :
    List String → Except VErr (List String)
  | [] => Except.ok []
  | u :: rest =>
    match validate_url env cfg u with
    | Except.ok true => (safe_validate_urls env cfg rest).map (u :: ·)
    | Except.ok false => safe_validate_urls env cfg rest
    | Except.error VErr.invalidUrl => safe_validate_urls env cfg rest
    | Except.error VErr.resolutionError => Except.error VErr.resolutionError

/-- Boolean form of "`validate_url` succeeded with a truthy result". -/
def validate_ok (env : NetEnv) (cfg : Config) (u : String) : Bool :=
  match validate_url env cfg u with
  | Except.ok true => true
  | _ => false

/-- Abstraction of a parsed page (BeautifulSoup) as seen by
`extract_metadata`: `titleText` is `soup.find("title").get_text()` when a
truthy title tag is found; `metaDescription` is `some c` when a
`meta[name=description]` tag is found (`c` its optional `content`
attribute); `htmlLang` is `some l` when an `html` tag is found (`l` its
optional `lang` attribute). -/
structure Soup where
  titleText : Option String
  metaDescription : Option (Option String)
  htmlLang : Option (Option String)
deriving DecidableEq, Repr

/-- The metadata dict; `none` means the key is absent from the dict. -/
structure Metadata where
  source : String
  title : Option String := none
  description : Option String := none
  language : Option String := none
deriving DecidableEq, Repr

/-- `extract_metadata(soup, url)`. -/
def extract_metadata (soup : Soup) (url : String) : Metadata :=
  { source := url
    title := soup.titleText
    description := soup.metaDescription.map (fun c => c.getD "No description found.")
    language := soup.htmlLang.map (fun l => l.getD "No language found.") }

/-- A langchain `Document`. -/
structure Document where
  page_content : String
  metadata : Metadata
deriving DecidableEq, Repr

/-- What `self._scrape(path, ...)` followed by `soup.get_text(...)` produced
for a path: the parsed soup and the extracted visible text. -/
structure ScrapeResult where
  soup : Soup
  text : String
deriving DecidableEq, Repr

/-- Abstraction of the HTTP-fetch-and-parse collaborator used by
`SafeWebBaseLoader.lazy_load`: `scrape p = none` models any exception
raised while scraping/parsing `p` (the `except Exception` branch). -/
structure StaticEnv where
  scrape : String → Option ScrapeResult

/-- `SafeWebBaseLoader.lazy_load`: per path, scrape, build metadata, yield a
Document; on any exception log and continue with the next URL.  The
returned list is the fully-consumed lazy sequence; totality of this
function is the "no exception escapes" guarantee. -/
def SafeWebBaseLoader_lazy_load (env : StaticEnv) : List String → List Document
  | [] => []
  | path :: rest =>
    match env.scrape path with
    | some r =>
      ⟨r.text, extract_metadata r.soup path⟩ :: SafeWebBaseLoader_lazy_load env rest
    | none => SafeWebBaseLoader_lazy_load env rest

/-- Outcome of `page.goto(url)` plus the evaluator, for one URL:
`raised` = `page.goto` (or `new_page`/evaluator) raised; `noResponse` =
`page.goto` returned `None`; `ok text` = a response was obtained and the
evaluator produced `text`. -/
inductive NavOutcome where
  | raised
  | noResponse
  | ok (text : String)
deriving DecidableEq, Repr

/-- The exceptions a single playwright URL iteration can raise. -/
inductive PwErr where
  | sslError
  | navRaised
  | noResponse
deriving DecidableEq, Repr

/-- Abstraction of the browser and TLS collaborators used by
`SafePlaywrightURLLoader.lazy_load`: `verifySslCertOk u` is the result of
`self._verify_ssl_cert(u)` (its internals are modelled separately as
`_verify_ssl_cert`), `nav u` the navigation outcome for `u`. -/
structure PwEnv where
  verifySslCertOk : String → Bool
  nav : String → NavOutcome

/-- The body of one iteration of the URL loop in
`SafePlaywrightURLLoader.lazy_load`: the `_safe_process_url_sync` SSL gate
(the rate-limit wait affects timing only), then navigation, the
response-is-None check, evaluation, and the yielded Document with
metadata `{"source": url}`. -/
def pw_process_url (verify_ssl : Bool) (env : PwEnv) (url : String) :
    Except PwErr Document :=
  if verify_ssl && !env.verifySslCertOk url then Except.error PwErr.sslError
  else
    match env.nav url with
    | NavOutcome.raised => Except.error PwErr.navRaised
    | NavOutcome.noResponse => Except.error PwErr.noResponse
    | NavOutcome.ok text => Except.ok ⟨text, { source := url }⟩

/-- The URL loop of `SafePlaywrightURLLoader.lazy_load`: yields the
documents in order; on a per-URL exception, continues when
`continue_on_failure` is set, otherwise re-raises (second component),
abandoning the remaining URLs. -/
def pw_loop (verify_ssl continue_on_failure : Bool) (env : PwEnv) :
    List String → List Document × Option PwErr
  | [] => ([], none)
  | url :: rest =>
    match pw_process_url verify_ssl env url with
    | Except.ok d =>
      let r := pw_loop verify_ssl continue_on_failure env rest
      (d :: r.1, r.2)
    | Except.error e =>
      if continue_on_failure then pw_loop verify_ssl continue_on_failure env rest
      else ([], some e)

/-- Observable outcome of fully consuming (or aborting) the generator:
the yielded documents, the exception it terminated with (if any), whether
the explicit `browser.close()` statement after the loop executed, and
whether the `with sync_playwright() / async_playwright()` context was
exited (Python runs the context-manager exit on every termination of the
generator frame). -/
structure LoadRun where
  docs : List Document
  raised : Option PwErr
  browserClosed : Bool
  playwrightStopped : Bool
deriving DecidableEq, Repr

/-- `SafePlaywrightURLLoader.lazy_load`, fully consumed.  The explicit
`browser.close()` is the statement after the loop, so it runs exactly when
the loop finished without raising; the playwright context exit runs on
every path. -/
def SafePlaywrightURLLoader_lazy_load (verify_ssl continue_on_failure : Bool)
    (env : PwEnv) (urls : List String) : LoadRun :=
  let r := pw_loop verify_ssl continue_on_failure env urls
  { docs := r.1
    raised := r.2
    browserClosed := r.2.isNone
    playwrightStopped := true }

/-- `SafePlaywrightURLLoader.alazy_load`: the asynchronous variant; its
body is structurally identical to `lazy_load` (same loop, same
error handling, `await browser.close()` after the loop, `async with`
context). -/
def SafePlaywrightURLLoader_alazy_load (verify_ssl continue_on_failure : Bool)
    (env : PwEnv) (urls : List String) : LoadRun :=
  let r := pw_loop verify_ssl continue_on_failure env urls
  { docs := r.1
    raised := r.2
    browserClosed := r.2.isNone
    playwrightStopped := true }

/-- The exception the synchronous rate-limit wait raises when it actually
tries to sleep: the module imports `time` FROM `datetime`
(`from datetime import datetime, time, timedelta`), so the name `time`
is the `datetime.time` time-of-day class and `time.sleep(...)` raises
`AttributeError`. -/
inductive RlErr where
  | attributeError
deriving DecidableEq, Repr

/-- `_sync_wait_for_rate_limit`, idealized over an exact rational clock:
given the configured `requests_per_second`, the stored
`last_request_time` and the current time `now` (the value of
`datetime.now()` at entry).  The Python guard
`if self.requests_per_second and self.last_request_time:` is truthiness:
a rate of `0` behaves like an unset rate.  Because `time` is the shadowed
`datetime.time` class, the `time.sleep(...)` call raises
`AttributeError` whenever a sleep is actually needed
(`time_since_last < min_interval`); the exception propagates and
`self.last_request_time = datetime.now()` is never reached.  When no
sleep is needed, the function records `now` and performs no sleep:
`Except.ok (sleep, new last_request_time)`. -/
def sync_wait_for_rate_limit (requests_per_second last_request_time : Option ℚ)
    (now : ℚ) : Except RlErr (ℚ × ℚ) :=
  match requests_per_second, last_request_time with
  | some r, some tl =>
    if r = 0 then Except.ok (0, now)
    else
      let min_interval : ℚ := 1 / r
      let time_since_last : ℚ := now - tl
      if time_since_last < min_interval then Except.error RlErr.attributeError
      else Except.ok (0, now)
  | _, _ => Except.ok (0, now)

/-- `_wait_for_rate_limit`: the asynchronous variant.  Unlike the sync
variant it uses the working `asyncio.sleep`, so the sleep is performed:
the result is the sleep duration and the new `last_request_time` (the
value of `datetime.now()` after the sleep, i.e. `now` plus the sleep
with zero computation cost). -/
def wait_for_rate_limit (requests_per_second last_request_time : Option ℚ)
    (now : ℚ) : ℚ × ℚ :=
  match requests_per_second, last_request_time with
  | some r, some tl =>
    if r = 0 then (0, now)
    else
      let min_interval : ℚ := 1 / r
      let time_since_last : ℚ := now - tl
      if time_since_last < min_interval then
        (min_interval - time_since_last, now + (min_interval - time_since_last))
      else (0, now)
  | _, _ => (0, now)

/-- Outcome of the TLS connection attempt in `_verify_ssl_cert`:
`ok` = handshake and connect succeeded; `sslError` = `ssl.SSLError`
raised; `otherError` = any other exception raised. -/
inductive TlsOutcome where
  | ok
  | sslError
  | otherError
deriving DecidableEq, Repr

/-- Abstraction of the TLS client: what
`context.wrap_socket(...).connect((hostname, 443))` does for a given
hostname. -/
structure TlsEnv where
  handshake : String → TlsOutcome

/-- Python's `s.startswith(pre)`, computed on the character lists. -/
def pyStartsWith (s pre : String) : Bool :=
  pre.data.isPrefixOf s.data

/-- The hostname computation in `_verify_ssl_cert`:
`url.split("://")[-1].split("/")[0]`. -/
def sslUrlHostname (url : String) : String :=
  (((url.splitOn "://").getLastD "").splitOn "/").headD ""

/-- `_verify_ssl_cert(url)`: non-HTTPS URLs pass trivially; an
`ssl.SSLError` returns `false`; any other exception is logged and returns
`false`.  Totality of this function (return type `Bool`) is the
"returns rather than raises" guarantee. -/
def verify_ssl_cert (env : TlsEnv) (url : String) : Bool :=
  if !pyStartsWith url "https://" then true
  else
    match env.handshake (sslUrlHostname url) with
    | TlsOutcome.ok => true
    | TlsOutcome.sslError => false
    | TlsOutcome.otherError => false

/-- The two concrete loader classes stored in `RAG_WEB_LOADERS`. -/
inductive LoaderClass where
  | safePlaywrightURLLoader
  | safeWebBaseLoader
deriving DecidableEq, Repr

/-- `RAG_WEB_LOADERS`: a `defaultdict` defaulting to `SafeWebBaseLoader`,
with explicit entries for "playwright" and "safe_web". -/
def RAG_WEB_LOADERS (name : String) : LoaderClass :=
  if name = "playwright" then LoaderClass.safePlaywrightURLLoader
  else if name = "safe_web" then LoaderClass.safeWebBaseLoader
  else LoaderClass.safeWebBaseLoader

/-- The `urls` argument of `get_web_loader`: a single string or a
sequence. -/
inductive UrlsArg where
  | str (s : String)
  | seq (l : List String)

/-- `[urls] if isinstance(urls, str) else urls`. -/
def UrlsArg.toList : UrlsArg → List String
  | UrlsArg.str s => [s]
  | UrlsArg.seq l => l

/-- The keyword arguments `get_web_loader` passes to the selected loader
class. -/
structure WebLoaderArgs where
  urls : List String
  verify_ssl : Bool
  requests_per_second : ℚ
  continue_on_failure : Bool
  playwright_ws_url : Option String
deriving DecidableEq, Repr

/-- The constructed, not-yet-executed loader returned by
`get_web_loader`: its class and its constructor arguments. -/
structure WebLoader where
  cls : LoaderClass
  args : WebLoaderArgs
deriving DecidableEq, Repr

/-- Python truthiness of an optional string (`None` and `""` are falsy). -/
def strTruthy : Option String → Bool
  | none => false
  | some s => s != ""

/-- `get_web_loader(urls, verify_ssl, requests_per_second)`: filters the
URLs through `safe_validate_urls` (whose exceptions propagate), builds
the argument dict with `continue_on_failure` hard-coded to `True`, adds
`playwright_ws_url` only when `PLAYWRIGHT_WS_URI.value` is truthy, and
instantiates `RAG_WEB_LOADERS[RAG_WEB_LOADER.value]`. -/
def get_web_loader (env : NetEnv) (cfg : Config) (urls : UrlsArg)
    (verify_ssl : Bool) (requests_per_second : ℚ) : Except VErr WebLoader :=
  (safe_validate_urls env cfg urls.toList).map fun safe_urls =>
    { cls := RAG_WEB_LOADERS cfg.ragWebLoader
      args :=
        { urls := safe_urls
          verify_ssl := verify_ssl
          requests_per_second := requests_per_second
          continue_on_failure := true
          playwright_ws_url :=
            if strTruthy cfg.playwrightWsUri then cfg.playwrightWsUri else none } }

/-! ### Concrete environments used to instantiate the theorems -/

/-- A network where every URL is syntactically valid and every hostname
resolves to the single private IPv4 address `127.0.0.1`. -/
def envPrivateOnly : NetEnv :=
  { urlSyntaxOk := fun _ => true
    hostname := fun _ => "localhost"
    resolve := fun _ => some (["127.0.0.1"], [])
    ipv4Private := fun ip => ip == "127.0.0.1"
    ipv6Private := fun _ => false }

/-- A network where every URL is syntactically valid and every hostname
resolves to a single public IPv4 address. -/
def envPublic : NetEnv :=
  { urlSyntaxOk := fun _ => true
    hostname := fun _ => "example.com"
    resolve := fun _ => some (["93.184.216.34"], [])
    ipv4Private := fun _ => false
    ipv6Private := fun _ => false }

/-- A network where DNS resolution fails for every hostname
(`socket.getaddrinfo` raises `socket.gaierror`). -/
def envDnsFail : NetEnv :=
  { urlSyntaxOk := fun _ => true
    hostname := fun _ => "no-such-host.invalid"
    resolve := fun _ => none
    ipv4Private := fun _ => false
    ipv6Private := fun _ => false }

/-- Configuration with `ENABLE_RAG_LOCAL_WEB_FETCH = False`. -/
def cfgLocalOff : Config :=
  { enableLocalWebFetch := false, ragWebLoader := "safe_web", playwrightWsUri := none }

/-- Configuration with `ENABLE_RAG_LOCAL_WEB_FETCH = True`. -/
def cfgLocalOn : Config :=
  { enableLocalWebFetch := true, ragWebLoader := "safe_web", playwrightWsUri := none }

/-! ### C1 -/

/-- C1: with the local-fetch flag disabled, a syntactically valid URL whose
hostname resolves only to private IPv4/IPv6 addresses (at least one
address) makes `validate_url` raise the invalid-URL `ValueError`, so
`safe_validate_urls` excludes it; with the flag enabled the
private-address check is skipped entirely (the conclusion holds for every
resolver behaviour) and the URL is retained. -/
theorem validate_private_address_gating
    (env : NetEnv) (cfg cfgOn : Config) (url : String)
    (hsyn : env.urlSyntaxOk url = true)
    (hoff : cfg.enableLocalWebFetch = false)
    (hon : cfgOn.enableLocalWebFetch = true)
    (v4s v6s : List String)
    (hres : env.resolve (env.hostname url) = some (v4s, v6s))
    (h4 : ∀ ip ∈ v4s, env.ipv4Private ip = true)
    (h6 : ∀ ip ∈ v6s, env.ipv6Private ip = true)
    (hne : v4s ≠ [] ∨ v6s ≠ []) :
    validate_url env cfg url = Except.error VErr.invalidUrl ∧
    safe_validate_urls env cfg [url] = Except.ok [] ∧
    validate_url env cfgOn url = Except.ok true ∧
    safe_validate_urls env cfgOn [url] = Except.ok [url] := by
  have hval : validate_url env cfg url = Except.error VErr.invalidUrl := by
    cases v4s with
    | cons a as =>
      have ha : env.ipv4Private a = true := h4 a (List.mem_cons_self a as)
      simp [validate_url, hsyn, hoff, hres, ha]
    | nil =>
      rcases hne with h | h
      · exact absurd rfl h
      · cases v6s with
        | nil => exact absurd rfl h
        | cons b bs =>
          have hb : env.ipv6Private b = true := h6 b (List.mem_cons_self b bs)
          simp [validate_url, hsyn, hoff, hres, hb]
  have hvalOn : validate_url env cfgOn url = Except.ok true := by
    simp [validate_url, hsyn, hon]
  refine ⟨hval, ?_, hvalOn, ?_⟩
  · simp [safe_validate_urls, hval]
  · simp [safe_validate_urls, hvalOn, Except.map]

/-- Witness for C1 at a concrete network and URL. -/
theorem validate_private_address_gating_witness :
    validate_url envPrivateOnly cfgLocalOff "http://localhost/x" =
      Except.error VErr.invalidUrl ∧
    safe_validate_urls envPrivateOnly cfgLocalOff ["http://localhost/x"] = Except.ok [] ∧
    validate_url envPrivateOnly cfgLocalOn "http://localhost/x" = Except.ok true ∧
    safe_validate_urls envPrivateOnly cfgLocalOn ["http://localhost/x"] =
      Except.ok ["http://localhost/x"] :=
  validate_private_address_gating envPrivateOnly cfgLocalOff cfgLocalOn
    "http://localhost/x" rfl rfl rfl ["127.0.0.1"] [] rfl (by decide) (by decide)
    (Or.inl (by decide))

/-! ### C2 -/

/-- C2: `safe_validate_urls` does NOT catch the DNS-resolution failure
(`socket.gaierror` is not a `ValueError`), so it raises on a
syntactically valid URL whose hostname fails to resolve while the
local-fetch check is active; on every input where it returns normally,
the result is exactly the order-preserving subsequence of URLs on which
`validate_url` succeeds. -/
theorem safe_validate_urls_dns_failure_raises :
    safe_validate_urls envDnsFail cfgLocalOff ["http://no-such-host.invalid/"] =
      Except.error VErr.resolutionError ∧
    ∀ (env : NetEnv) (cfg : Config) (urls res : List String),
      safe_validate_urls env cfg urls = Except.ok res →
      res = urls.filter (validate_ok env cfg) := by
  constructor
  · rfl
  · intro env cfg urls res h
    induction urls generalizing res with
    | nil =>
      rw [safe_validate_urls] at h
      cases h
      rfl
    | cons u rest ih =>
      rw [safe_validate_urls] at h
      cases hv : validate_url env cfg u with
      | ok b =>
        cases b with
        | true =>
          rw [hv] at h
          cases hr : safe_validate_urls env cfg rest with
          | ok res2 =>
            rw [hr] at h
            cases h
            simp [List.filter, validate_ok, hv, ih res2 hr]
          | error e =>
            rw [hr] at h
            cases h
        | false =>
          rw [hv] at h
          simp [List.filter, validate_ok, hv, ih res h]
      | error e =>
        cases e with
        | invalidUrl =>
          rw [hv] at h
          simp [List.filter, validate_ok, hv, ih res h]
        | resolutionError =>
          rw [hv] at h
          cases h

/-- Witness for C2's normal-return clause at a concrete network. -/
theorem safe_validate_urls_dns_failure_raises_witness :
    ["http://a", "http://b"] =
      List.filter (validate_ok envPublic cfgLocalOff) ["http://a", "http://b"] :=
  safe_validate_urls_dns_failure_raises.2 envPublic cfgLocalOff
    ["http://a", "http://b"] ["http://a", "http://b"] rfl

/-! ### C3 -/

/-- A browser environment where SSL checks pass, navigation to
`https://two` raises, and every other navigation succeeds. -/
def pwEnvNav2Fails : PwEnv :=
  { verifySslCertOk := fun _ => true
    nav := fun u =>
      if u == "https://two" then NavOutcome.raised
      else NavOutcome.ok ("text " ++ u) }

/-- C3 counterexample: with `continue_on_failure = False` and URL #2 of 3
failing navigation, the explicit `browser.close()` statement after the
loop is NOT executed on the abort path (it follows the loop and is not in
a `finally`), contradicting the claim that the browser-close action is
still invoked there. -/
theorem rendered_abort_skips_browser_close :
    (SafePlaywrightURLLoader_lazy_load true false pwEnvNav2Fails
      ["https://one", "https://two", "https://three"]).browserClosed = false := by
  decide

/-- C3 amended: with `continue_on_failure = False` and URL #2 of 3 failing
navigation (SSL passing), both `lazy_load` and `alazy_load` yield exactly
URL #1's document and then terminate by propagating the error; the
explicit `browser.close()` call is skipped on that abort path, and the
browser resource is released only through the exit of the enclosing
`sync_playwright()` / `async_playwright()` context manager. -/
theorem rendered_abort_yields_then_raises
    (env : PwEnv) (u1 u2 u3 t1 : String)
    (hs1 : env.verifySslCertOk u1 = true)
    (hs2 : env.verifySslCertOk u2 = true)
    (h1 : env.nav u1 = NavOutcome.ok t1)
    (h2 : env.nav u2 = NavOutcome.raised) :
    SafePlaywrightURLLoader_lazy_load true false env [u1, u2, u3] =
      { docs := [⟨t1, { source := u1 }⟩]
        raised := some PwErr.navRaised
        browserClosed := false
        playwrightStopped := true } ∧
    SafePlaywrightURLLoader_alazy_load true false env [u1, u2, u3] =
      { docs := [⟨t1, { source := u1 }⟩]
        raised := some PwErr.navRaised
        browserClosed := false
        playwrightStopped := true } := by
  have hloop : pw_loop true false env [u1, u2, u3] =
      ([⟨t1, { source := u1 }⟩], some PwErr.navRaised) := by
    simp [pw_loop, pw_process_url, hs1, hs2, h1, h2]
  constructor
  · simp [SafePlaywrightURLLoader_lazy_load, hloop]
  · simp [SafePlaywrightURLLoader_alazy_load, hloop]

/-- Witness for C3's amended claim at a concrete browser environment. -/
theorem rendered_abort_yields_then_raises_witness :
    SafePlaywrightURLLoader_lazy_load true false pwEnvNav2Fails
      ["https://one", "https://two", "https://three"] =
      { docs := [⟨"text https://one", { source := "https://one" }⟩]
        raised := some PwErr.navRaised
        browserClosed := false
        playwrightStopped := true } ∧
    SafePlaywrightURLLoader_alazy_load true false pwEnvNav2Fails
      ["https://one", "https://two", "https://three"] =
      { docs := [⟨"text https://one", { source := "https://one" }⟩]
        raised := some PwErr.navRaised
        browserClosed := false
        playwrightStopped := true } :=
  rendered_abort_yields_then_raises pwEnvNav2Fails
    "https://one" "https://two" "https://three" "text https://one"
    rfl rfl (by decide) rfl

/-! ### C4 -/

/-- A page with `<title>Example</title>`, no meta-description tag, and
`<html lang="en">`. -/
def soupTitleLangOnly : Soup :=
  { titleText := some "Example", metaDescription := none, htmlLang := some (some "en") }

/-- A page whose only relevant tag is a meta-description tag with no
`content` attribute. -/
def soupDescNoContent : Soup :=
  { titleText := none, metaDescription := some none, htmlLang := none }

/-- C4 counterexample: on the claimed page (title present, no
meta-description tag, `lang="en"`) the metadata contains NO description
entry at all — not the sentinel `"No description found."` the claim
asserts. -/
theorem extract_metadata_missing_description_not_sentinel :
    (extract_metadata soupTitleLangOnly "https://example.com").description ≠
      some "No description found." := by
  decide

/-- C4 amended: the claimed page yields
`{source, title: "Example", language: "en"}` with the description key
absent; the `"No description found."` sentinel is produced only when a
meta-description tag is present but lacks a `content` attribute (and
likewise the language sentinel only when an `html` tag lacks `lang`;
a missing title tag simply omits the key). -/
theorem extract_metadata_description_behavior :
    extract_metadata soupTitleLangOnly "https://example.com" =
      { source := "https://example.com"
        title := some "Example"
        description := none
        language := some "en" } ∧
    (∀ (s : Soup) (url : String), s.metaDescription = some none →
      (extract_metadata s url).description = some "No description found.") ∧
    (∀ (s : Soup) (url : String), s.htmlLang = some none →
      (extract_metadata s url).language = some "No language found.") ∧
    (∀ (s : Soup) (url : String), s.titleText = none →
      (extract_metadata s url).title = none) := by
  refine ⟨rfl, ?_, ?_, ?_⟩ <;> intro s url h <;> simp [extract_metadata, h]

/-- Witness for C4's amended sentinel clause at a concrete page. -/
theorem extract_metadata_description_behavior_witness :
    (extract_metadata soupDescNoContent "u").description =
      some "No description found." :=
  extract_metadata_description_behavior.2.1 soupDescNoContent "u" rfl

/-! ### C5 -/

/-- Configuration selecting the "playwright" strategy. -/
def cfgPlaywright : Config :=
  { enableLocalWebFetch := true, ragWebLoader := "playwright", playwrightWsUri := none }

/-- The loader `get_web_loader` builds for the "playwright" strategy on an
empty URL list with the default arguments. -/
def loaderPlaywrightEmpty : WebLoader :=
  { cls := LoaderClass.safePlaywrightURLLoader
    args :=
      { urls := []
        verify_ssl := true
        requests_per_second := 2
        continue_on_failure := true
        playwright_ws_url := none } }

/-- C5: a loader returned by `get_web_loader` is an instance of the class
`RAG_WEB_LOADERS` maps the configured name to: "playwright" gives
`SafePlaywrightURLLoader`, "safe_web" gives `SafeWebBaseLoader`, and any
other name falls back to the defaultdict default `SafeWebBaseLoader`. -/
theorem get_web_loader_strategy_selection
    (env : NetEnv) (cfg : Config) (urls : UrlsArg) (verify_ssl : Bool)
    (requests_per_second : ℚ) (loader : WebLoader)
    (h : get_web_loader env cfg urls verify_ssl requests_per_second =
      Except.ok loader) :
    (cfg.ragWebLoader = "playwright" →
      loader.cls = LoaderClass.safePlaywrightURLLoader) ∧
    (cfg.ragWebLoader = "safe_web" → loader.cls = LoaderClass.safeWebBaseLoader) ∧
    (cfg.ragWebLoader ≠ "playwright" →
      loader.cls = LoaderClass.safeWebBaseLoader) := by
  have hcls : loader.cls = RAG_WEB_LOADERS cfg.ragWebLoader := by
    unfold get_web_loader at h
    cases hs : safe_validate_urls env cfg urls.toList with
    | ok safe_urls =>
      rw [hs] at h
      cases h
      rfl
    | error e =>
      rw [hs] at h
      cases h
  refine ⟨fun hn => ?_, fun hn => ?_, fun hn => ?_⟩ <;>
    rw [hcls] <;> unfold RAG_WEB_LOADERS <;> simp [hn]

/-- Witness for C5 at the concrete "playwright" configuration. -/
theorem get_web_loader_strategy_selection_witness :
    loaderPlaywrightEmpty.cls = LoaderClass.safePlaywrightURLLoader :=
  (get_web_loader_strategy_selection envPublic cfgPlaywright (UrlsArg.seq [])
    true 2 loaderPlaywrightEmpty rfl).1 rfl

/-! ### C6 -/

/-- A static-fetch environment where scraping `"b"` raises and every other
path yields a page whose visible text is the path itself. -/
def staticEnvSecondFails : StaticEnv :=
  { scrape := fun u =>
      if u == "b" then none
      else some
        { soup := { titleText := none, metaDescription := none, htmlLang := none }
          text := u } }

/-- C6: `SafeWebBaseLoader.lazy_load` on 3 URLs whose 2nd raises while
scraping yields exactly the documents for URL #1 and URL #3 in that
order; the function is total (returns a plain list), so no exception
escapes, and there is no stop-on-failure mode to configure. -/
theorem static_fetcher_continues_past_failure
    (env : StaticEnv) (u1 u2 u3 : String) (r1 r3 : ScrapeResult)
    (h1 : env.scrape u1 = some r1)
    (h2 : env.scrape u2 = none)
    (h3 : env.scrape u3 = some r3) :
    SafeWebBaseLoader_lazy_load env [u1, u2, u3] =
      [⟨r1.text, extract_metadata r1.soup u1⟩,
       ⟨r3.text, extract_metadata r3.soup u3⟩] := by
  simp [SafeWebBaseLoader_lazy_load, h1, h2, h3]

/-- Witness for C6 at a concrete scraper. -/
theorem static_fetcher_continues_past_failure_witness :
    SafeWebBaseLoader_lazy_load staticEnvSecondFails ["a", "b", "c"] =
      [⟨"a", { source := "a" }⟩, ⟨"c", { source := "c" }⟩] := by
  have h := static_fetcher_continues_past_failure staticEnvSecondFails "a" "b" "c"
    { soup := { titleText := none, metaDescription := none, htmlLang := none }
      text := "a" }
    { soup := { titleText := none, metaDescription := none, htmlLang := none }
      text := "c" }
    (by decide) (by decide) (by decide)
  simpa [extract_metadata] using h

/-! ### C7 -/

/-- C7: the claimed timing discipline holds of the asynchronous variant
(with rate `r > 0` the newly recorded `last_request_time` is at least
`1/r` after the previous one, the recorded value is always `now` plus
the sleep performed, and an unset rate sleeps 0 and records `now`), but
the synchronous variant cannot perform it: `time` is the shadowed
`datetime.time` class, so whenever a sleep is actually needed
(`now - tl < 1/r` with the rate set) `time.sleep` raises
`AttributeError` and NO timestamp is recorded — in particular at the
concrete failing input rate 2, previous request at 0, current time 1/4;
only when no sleep is needed does the sync variant record `now`.  The
two variants are therefore not semantically identical. -/
theorem sync_rate_limiter_raises_on_needed_wait :
    sync_wait_for_rate_limit (some 2) (some 0) (1 / 4) =
      Except.error RlErr.attributeError ∧
    (∀ r tl now : ℚ, r ≠ 0 → now - tl < 1 / r →
      sync_wait_for_rate_limit (some r) (some tl) now =
        Except.error RlErr.attributeError) ∧
    (∀ r tl now : ℚ, 0 < r →
      1 / r ≤ (wait_for_rate_limit (some r) (some tl) now).2 - tl ∧
      (wait_for_rate_limit (some r) (some tl) now).2 =
        now + (wait_for_rate_limit (some r) (some tl) now).1) ∧
    (∀ (last : Option ℚ) (now2 : ℚ),
      wait_for_rate_limit none last now2 = (0, now2) ∧
      sync_wait_for_rate_limit none last now2 = Except.ok (0, now2)) ∧
    (∀ r tl now : ℚ, r ≠ 0 → 1 / r ≤ now - tl →
      sync_wait_for_rate_limit (some r) (some tl) now = Except.ok (0, now)) := by
  have hgen : ∀ r tl now : ℚ, r ≠ 0 → now - tl < 1 / r →
      sync_wait_for_rate_limit (some r) (some tl) now =
        Except.error RlErr.attributeError := by
    intro r tl now hr hlt
    simp only [sync_wait_for_rate_limit, if_neg hr]
    rw [if_pos hlt]
  have hok : ∀ r tl now : ℚ, r ≠ 0 → 1 / r ≤ now - tl →
      sync_wait_for_rate_limit (some r) (some tl) now = Except.ok (0, now) := by
    intro r tl now hr hle
    simp only [sync_wait_for_rate_limit, if_neg hr]
    rw [if_neg (not_lt.mpr hle)]
  refine ⟨hgen 2 0 (1 / 4) (by norm_num) (by norm_num), hgen, ?_, ?_, hok⟩
  · intro r tl now hr
    have hr0 : r ≠ 0 := ne_of_gt hr
    constructor
    · simp only [wait_for_rate_limit, if_neg hr0]
      split_ifs with h
      · simp only [Prod.snd]
        linarith
      · simp only [Prod.snd]
        linarith [not_lt.mp h]
    · simp only [wait_for_rate_limit, if_neg hr0]
      split_ifs with h
      · simp
      · simp
  · intro last now2
    constructor
    · cases last <;> rfl
    · cases last <;> rfl

/-- Witness for C7: the sync variant raises at the concrete needed-wait
input, while the async variant enforces the half-second gap at rate 2. -/
theorem sync_rate_limiter_raises_on_needed_wait_witness :
    sync_wait_for_rate_limit (some 2) (some 1) (5 / 4) =
      Except.error RlErr.attributeError ∧
    (1 / 2 : ℚ) ≤ (wait_for_rate_limit (some 2) (some 0) 0).2 - 0 :=
  ⟨sync_rate_limiter_raises_on_needed_wait.2.1 2 1 (5 / 4) (by norm_num) (by norm_num),
   (sync_rate_limiter_raises_on_needed_wait.2.2.1 2 0 0 (by norm_num)).1⟩

/-! ### C8 -/

/-- A successfully processed playwright URL yields a document whose
metadata source is that URL. -/
theorem pw_process_url_source (v : Bool) (env : PwEnv) (u : String) (d : Document)
    (h : pw_process_url v env u = Except.ok d) : d.metadata.source = u := by
  unfold pw_process_url at h
  split at h
  · cases h
  · cases hn : env.nav u <;> rw [hn] at h
    · cases h
    · cases h
    · cases h
      rfl

/-- The sources of the documents yielded by the playwright loop form an
order-preserving subsequence of the input URLs. -/
theorem pw_loop_sources_sublist (v c : Bool) (env : PwEnv) (urls : List String) :
    ((pw_loop v c env urls).1.map (fun d => d.metadata.source)).Sublist urls := by
  induction urls with
  | nil => simp [pw_loop]
  | cons u rest ih =>
    rw [pw_loop]
    cases hp : pw_process_url v env u with
    | ok d =>
      have hsrc := pw_process_url_source v env u d hp
      simpa [hsrc] using List.Sublist.cons₂ u ih
    | error e =>
      cases c with
      | true => exact List.Sublist.cons u ih
      | false => simp

/-- Every document yielded by the playwright loop is the successful
processing result of its own source URL. -/
theorem pw_loop_mem_ok (v c : Bool) (env : PwEnv) (urls : List String) (d : Document)
    (hd : d ∈ (pw_loop v c env urls).1) :
    pw_process_url v env d.metadata.source = Except.ok d := by
  induction urls with
  | nil => simp [pw_loop] at hd
  | cons u rest ih =>
    rw [pw_loop] at hd
    cases hp : pw_process_url v env u with
    | ok d0 =>
      rw [hp] at hd
      rcases List.mem_cons.mp hd with rfl | hmem
      · rw [pw_process_url_source v env u d hp]
        exact hp
      · exact ih hmem
    | error e =>
      rw [hp] at hd
      cases c with
      | true => exact ih hd
      | false => simp at hd

/-- The sources of the documents yielded by `SafeWebBaseLoader.lazy_load`
form an order-preserving subsequence of the input paths. -/
theorem static_sources_sublist (env : StaticEnv) (paths : List String) :
    ((SafeWebBaseLoader_lazy_load env paths).map
      (fun d => d.metadata.source)).Sublist paths := by
  induction paths with
  | nil => simp [SafeWebBaseLoader_lazy_load]
  | cons p rest ih =>
    rw [SafeWebBaseLoader_lazy_load]
    cases hs : env.scrape p with
    | some r => simpa [extract_metadata] using List.Sublist.cons₂ p ih
    | none => exact List.Sublist.cons p ih

/-- Every document yielded by `SafeWebBaseLoader.lazy_load` is built from a
successful scrape of its own source path. -/
theorem static_mem_ok (env : StaticEnv) (paths : List String) (d : Document)
    (hd : d ∈ SafeWebBaseLoader_lazy_load env paths) :
    ∃ r, env.scrape d.metadata.source = some r ∧
      d = ⟨r.text, extract_metadata r.soup d.metadata.source⟩ := by
  induction paths with
  | nil => simp [SafeWebBaseLoader_lazy_load] at hd
  | cons p rest ih =>
    rw [SafeWebBaseLoader_lazy_load] at hd
    cases hs : env.scrape p with
    | some r =>
      rw [hs] at hd
      rcases List.mem_cons.mp hd with rfl | hmem
      · exact ⟨r, by simpa [extract_metadata] using hs, by simp [extract_metadata]⟩
      · exact ih hmem
    | none =>
      rw [hs] at hd
      exact ih hd

/-- C8: for both strategies, the emitted document sources are an
order-preserving subsequence of the input URLs (hence at most one result
per URL, in input order), the number of results is at most the number of
input URLs, every result comes from a successful processing of its own
URL (failed/skipped URLs emit nothing), and the async rendered variant
agrees with the sync one. -/
theorem fetch_results_subsequence_of_urls
    (verify_ssl continue_on_failure : Bool) (penv : PwEnv) (senv : StaticEnv)
    (urls paths : List String) :
    (((SafePlaywrightURLLoader_lazy_load verify_ssl continue_on_failure penv
        urls).docs.map (fun d => d.metadata.source)).Sublist urls ∧
      (SafePlaywrightURLLoader_lazy_load verify_ssl continue_on_failure penv
        urls).docs.length ≤ urls.length ∧
      ∀ d ∈ (SafePlaywrightURLLoader_lazy_load verify_ssl continue_on_failure penv
        urls).docs, pw_process_url verify_ssl penv d.metadata.source = Except.ok d) ∧
    (((SafeWebBaseLoader_lazy_load senv paths).map
        (fun d => d.metadata.source)).Sublist paths ∧
      (SafeWebBaseLoader_lazy_load senv paths).length ≤ paths.length ∧
      ∀ d ∈ SafeWebBaseLoader_lazy_load senv paths,
        ∃ r, senv.scrape d.metadata.source = some r ∧
          d = ⟨r.text, extract_metadata r.soup d.metadata.source⟩) ∧
    SafePlaywrightURLLoader_alazy_load verify_ssl continue_on_failure penv urls =
      SafePlaywrightURLLoader_lazy_load verify_ssl continue_on_failure penv urls := by
  refine ⟨⟨?_, ?_, ?_⟩, ⟨?_, ?_, ?_⟩, rfl⟩
  · exact pw_loop_sources_sublist verify_ssl continue_on_failure penv urls
  · have h := (pw_loop_sources_sublist verify_ssl continue_on_failure penv
      urls).length_le
    simpa using h
  · exact fun d hd => pw_loop_mem_ok verify_ssl continue_on_failure penv urls d hd
  · exact static_sources_sublist senv paths
  · have h := (static_sources_sublist senv paths).length_le
    simpa using h
  · exact fun d hd => static_mem_ok senv paths d hd

/-- A browser environment where everything succeeds with constant text. -/
def pwEnvAllOk : PwEnv :=
  { verifySslCertOk := fun _ => true
    nav := fun _ => NavOutcome.ok "T" }

/-- Witness for C8's per-document clause at a concrete environment. -/
theorem fetch_results_subsequence_of_urls_witness :
    pw_process_url true pwEnvAllOk "https://one" =
      Except.ok ⟨"T", { source := "https://one" }⟩ :=
  (fetch_results_subsequence_of_urls true true pwEnvAllOk staticEnvSecondFails
    ["https://one"] []).1.2.2 ⟨"T", { source := "https://one" }⟩ (by decide)

/-! ### C9 -/

/-- A TLS environment whose every handshake raises `ssl.SSLError`. -/
def tlsEnvSslFails : TlsEnv := { handshake := fun _ => TlsOutcome.sslError }

/-- C9: `_verify_ssl_cert` returns `True` for every non-HTTPS URL; for an
HTTPS URL it returns `False` (has return type `Bool`, so it returns
rather than raises) both when the handshake raises a TLS-specific
`ssl.SSLError` and when any other connection error is raised (the logged
fail-closed branch). -/
theorem ssl_verifier_fail_closed (env : TlsEnv) (url : String) :
    (pyStartsWith url "https://" = false → verify_ssl_cert env url = true) ∧
    (pyStartsWith url "https://" = true →
      env.handshake (sslUrlHostname url) = TlsOutcome.sslError →
      verify_ssl_cert env url = false) ∧
    (pyStartsWith url "https://" = true →
      env.handshake (sslUrlHostname url) = TlsOutcome.otherError →
      verify_ssl_cert env url = false) := by
  refine ⟨fun h => ?_, fun h1 h2 => ?_, fun h1 h2 => ?_⟩
  · simp [verify_ssl_cert, h]
  · simp [verify_ssl_cert, h1, h2]
  · simp [verify_ssl_cert, h1, h2]

/-- Witness for C9: an HTTPS URL with a failing handshake verifies to
`false`. -/
theorem ssl_verifier_fail_closed_witness :
    verify_ssl_cert tlsEnvSslFails "https://bad.example/path" = false :=
  (ssl_verifier_fail_closed tlsEnvSslFails "https://bad.example/path").2.1
    (by decide) rfl

/-! ### C10 -/

/-- C10: every loader `get_web_loader` returns — whatever the strategy
name, URL argument, SSL flag or rate — has `continue_on_failure` set to
`True`, so the abort-on-first-failure mode of `SafePlaywrightURLLoader`
is unreachable through the factory. -/
theorem factory_fixes_continue_on_failure
    (env : NetEnv) (cfg : Config) (urls : UrlsArg) (verify_ssl : Bool)
    (requests_per_second : ℚ) (loader : WebLoader)
    (h : get_web_loader env cfg urls verify_ssl requests_per_second =
      Except.ok loader) :
    loader.args.continue_on_failure = true := by
  unfold get_web_loader at h
  cases hs : safe_validate_urls env cfg urls.toList with
  | ok safe_urls =>
    rw [hs] at h
    cases h
    rfl
  | error e =>
    rw [hs] at h
    cases h

/-- Witness for C10 at the concrete "playwright" configuration. -/
theorem factory_fixes_continue_on_failure_witness :
    loaderPlaywrightEmpty.args.continue_on_failure = true :=
  factory_fixes_continue_on_failure envPublic cfgPlaywright (UrlsArg.seq [])
    true 2 loaderPlaywrightEmpty rfl

end OpenWebUI
